import Mathlib

/-!
Verification development for the flrigWebRemote browser client
(`static/js/app.js`, current revision: the one defining the WebRTC audio
session, the PTT coordinator and the iambic CW keyer).

Shallow embedding conventions:

* Time is measured in integer "ticks" of 1/17 millisecond, so that every
  interval of the source is an exact natural number:
  `DIT_MS = 1200 / 17 ms = 1200` ticks, `DAH_MS = 3 * DIT_MS = 3600` ticks,
  `CW_PTT_HANG_MS = 300 ms = 5100` ticks.
* JavaScript's single-threaded event loop is modelled by an explicit
  scheduler (`step` / `run`): at each step the earliest pending happening
  (keyer timer, PTT hang timer, or the next external input) is processed
  atomically, exactly as the corresponding JS callback body runs to
  completion.  `setTimeout` handles are modelled as `Option` slots holding
  the absolute fire time; a fired timer's slot is cleared when its callback
  runs (the JS variable keeps the expired handle, but no timer is
  outstanding).
* The pages that run the keyer always have the `rx-audio` element and have
  run `initCWToneGenerator()` from the DOMContentLoaded handler, so
  `rxAudioEl`, `audioContext` and `cwGainNode` are non-null throughout; the
  model assumes this.  The 50 ms sidetone delay awaited inside
  `startCWTone` after engaging PTT only postpones oscillator/ramp work; it
  is shorter than every element duration and affects none of the modelled
  observables, so `startCWTone` is modelled as its synchronous prefix.
* Outputs (socket emissions, element starts/completions, hang-timer
  arming, reconnect calls) are accumulated in an `events` list stamped
  with the tick at which they happen.
-/

namespace FlrigWeb

/-! ### Timing constants (app.js lines 441-448) -/

/-- `const CW_WPM = 17;` -/
def CW_WPM : ℕ := 17

/-- `const DIT_MS = 1200 / CW_WPM;` — exact rational milliseconds. -/
def DIT_MS : ℚ := 1200 / (CW_WPM : ℚ)

/-- `const DAH_MS = DIT_MS * 3;` -/
def DAH_MS : ℚ := DIT_MS * 3

/-- `const CW_PTT_HANG_MS = 300;` (milliseconds, independent of WPM). -/
def CW_PTT_HANG_MS : ℕ := 300

/-- One millisecond in ticks (the model's time unit is 1/17 ms). -/
def ticksPerMs : ℕ := 17

/-- `DIT_MS` in ticks: `1200/17 ms * 17 ticks/ms = 1200`. -/
def ditTicks : ℕ := 1200

/-- `DAH_MS` in ticks. -/
def dahTicks : ℕ := 3600

/-- `CW_PTT_HANG_MS` in ticks: `300 * 17`. -/
def hangTicks : ℕ := CW_PTT_HANG_MS * ticksPerMs

/-! ### WebRTC session manager: `startWebRTC` / `stopWebRTC`
(app.js lines 579-759)

`startWebRTC` is an async function whose only suspension points are the
awaits on offer creation, the signaling `fetch`, and the answer
application.  We split it at the signaling exchange:

* `startWebRTC_entry` is the synchronous part up to and including sending
  the offer: the guard (`if (!rxAudioEl) return; if (webrtcConnected)
  return;`), creation of the `RTCPeerConnection`, attaching of tracks, and
  the POST of the local description.  It returns the new state together
  with `true` iff execution got past the guard (an offer/answer exchange
  was started).
* `startWebRTC_resume` is the continuation after the `fetch` settles.
  The source has no try/catch around the exchange, so a rejected `fetch`
  (network error) propagates out of the async function; only the
  `!res.ok` branch runs `stopWebRTC()`.  The returned `Bool` is `true`
  iff an exception escaped to the caller.
-/

/-- State owned by the audio session manager. `pcOpen`: a
`RTCPeerConnection` has been created and not closed; `tracksLive`: its
local tracks have not been stopped; `offersSent` counts POSTs of a local
description to `/api/webrtc/offer` made by `startWebRTC`. -/
structure RTC where
  hasAudioEl : Bool
  webrtcConnected : Bool
  pcOpen : Bool
  tracksLive : Bool
  offersSent : ℕ
deriving DecidableEq, Repr

/-- The page's initial session state: audio element present, nothing
connected. -/
def RTC.init : RTC :=
  { hasAudioEl := true, webrtcConnected := false, pcOpen := false,
    tracksLive := false, offersSent := 0 }

/-- The spec's `Negotiating` phase: an offer/answer exchange is in flight
(`pc` created, `webrtcConnected` not yet set at line 730). -/
def RTC.negotiating (s : RTC) : Prop :=
  s.pcOpen = true ∧ s.webrtcConnected = false

instance : DecidablePred RTC.negotiating := fun _ => by
  unfold RTC.negotiating; infer_instance

/-- `stopWebRTC()` (lines 735-759): stops all sender/receiver tracks,
closes and nulls `pc`, best-effort teardown POST, clears
`webrtcConnected`. -/
def stopWebRTC (s : RTC) : RTC :=
  { s with pcOpen := false, tracksLive := false, webrtcConnected := false }

/-- Synchronous prefix of `startWebRTC()` (lines 579-707): the guard, then
`pc = new RTCPeerConnection(...)`, transceiver/track attachment, offer
creation and the POST of the local description. -/
def startWebRTC_entry (s : RTC) : RTC × Bool :=
  if !s.hasAudioEl then (s, false)
  else if s.webrtcConnected then (s, false)
  else ({ s with pcOpen := true, tracksLive := true,
                 offersSent := s.offersSent + 1 }, true)

/-- How the signaling exchange settles, seen from the `await fetch(...)`
at line 700. -/
inductive SignalResult
  /-- `res.ok` and a parsable answer: `setRemoteDescription` succeeds. -/
  | answered
  /-- `!res.ok` (non-success HTTP status, lines 709-713). -/
  | httpError
  /-- the `fetch` promise rejects (network failure): the await throws. -/
  | networkError
deriving DecidableEq, Repr

/-- Continuation of `startWebRTC()` after the signaling exchange settles
(lines 709-733).  Second component: `true` iff an exception propagated to
the caller (there is no try/catch in `startWebRTC`). -/
def startWebRTC_resume (s : RTC) (r : SignalResult) : RTC × Bool :=
  match r with
  | .answered => ({ s with webrtcConnected := true }, false)
  | .httpError => (stopWebRTC s, false)
  | .networkError => (s, true)

/-! ### Microphone / CW-tone senders: `connectMic`, `disconnectMic`,
`ensureCWToneInWebRTC` (app.js lines 1104-1273)

`pc.getSenders()` is modelled as an association list from sender ids to
the (audio) track each sender currently carries; `pc.removeTrack(sender)`
nulls the sender's track but keeps the sender, which is what the
`sender.track` re-checks in the source observe.  `cwToneSender` stores the
id of the sender returned by `pc.addTrack(toneTrack, ...)`. -/

/-- Source of an outbound audio track. -/
inductive TrackSrc
  | mic
  | tone
deriving DecidableEq, Repr

/-- State touched by the mic/tone track management. `offersSent` counts
renegotiation POSTs to `/api/webrtc/offer`. -/
structure MicRTC where
  pcOpen : Bool
  webrtcConnected : Bool
  micEnabled : Bool
  micStreamPresent : Bool
  cwDestReady : Bool
  senders : List (ℕ × Option TrackSrc)
  cwToneSender : Option ℕ
  nextSenderId : ℕ
  offersSent : ℕ
deriving DecidableEq, Repr

/-- Look up the track currently carried by sender `i`. -/
def MicRTC.trackOf (s : MicRTC) (i : ℕ) : Option TrackSrc :=
  ((s.senders.find? (fun p => p.1 = i)).map Prod.snd).getD none

/-- `connectMic()` (lines 1104-1166).  `granted`: `getUserMedia`
resolved; `renegOk`: the renegotiation POST (if any) returned `res.ok`.
On grant, the mic track is added to the peer connection and a
renegotiation runs only if already connected; on denial `micEnabled`
stays false. -/
def connectMic (s : MicRTC) (granted renegOk : Bool) : MicRTC :=
  if s.micEnabled then s
  else if !granted then { s with micEnabled := false }
  else
    let s1 := { s with micStreamPresent := true }
    let s2 :=
      if s1.pcOpen && s1.webrtcConnected then
        { s1 with senders := s1.senders ++ [(s1.nextSenderId, some TrackSrc.mic)],
                   nextSenderId := s1.nextSenderId + 1,
                   offersSent := s1.offersSent + 1 }
      else s1
    -- a failed renegotiation is only logged; micEnabled is set regardless
    let s3 := if renegOk then s2 else s2
    { s3 with micEnabled := true }

/-- `disconnectMic()` (lines 1168-1195): stops and drops the mic stream,
then — if the peer connection is live — calls `pc.removeTrack` on every
sender whose `track` is a (non-null) audio track.  No renegotiation is
performed. -/
def disconnectMic (s : MicRTC) : MicRTC :=
  if !s.micEnabled then s
  else
    let s1 := { s with micStreamPresent := false }
    let s2 :=
      if s1.pcOpen && s1.webrtcConnected then
        { s1 with senders := s1.senders.map (fun p =>
            if p.2.isSome then (p.1, none) else p) }
      else s1
    { s2 with micEnabled := false }

/-- `ensureCWToneInWebRTC()` (lines 1225-1273): no-op unless the peer
connection is connected and the tone destination exists; if the recorded
tone sender still carries a track, done; otherwise add the tone track as
a new sender and renegotiate.  Second component: the function's returned
boolean (`renegOk` is whether the renegotiation POST succeeded). -/
def ensureCWToneInWebRTC (s : MicRTC) (renegOk : Bool) : MicRTC × Bool :=
  if !s.pcOpen || !s.webrtcConnected || !s.cwDestReady then (s, false)
  else if (s.cwToneSender.map s.trackOf).getD none |>.isSome then (s, true)
  else
    let s1 := { s with senders := s.senders ++ [(s.nextSenderId, some TrackSrc.tone)],
                       cwToneSender := some s.nextSenderId,
                       nextSenderId := s.nextSenderId + 1,
                       offersSent := s.offersSent + 1 }
    if renegOk then (s1, true) else (s1, false)

/-! ### The CW keyer and PTT coordinator (app.js lines 434-1476)

All of `togglePTT`, `deactivatePTT`, `startCWTone`, `stopCWTone`,
`startKeyerElement`, the two `keyerTimer` callbacks, the hang-timer
callback, `handleCWKeyDown` and `handleCWKeyUp` are translated
function-for-function.  `startWebRTC()` invoked from `togglePTT`'s
release branch is recorded as a `reconnect` event (the session model
above covers its behaviour). -/

/-- A keyer element, the JS strings `'dit'` / `'dah'`. -/
inductive Element
  | dit
  | dah
deriving DecidableEq, Repr

/-- `keyerState`, the JS strings `'idle' | 'sending_dit' | 'sending_dah' |
'element_space'`. -/
inductive KeyerPhase
  | idle
  | sending_dit
  | sending_dah
  | element_space
deriving DecidableEq, Repr

/-- What the pending `keyerTimer` callback will do when it fires:
the element-duration callback (line 1402) or the inter-element-space
callback (line 1407). -/
inductive KTimerKind
  | elementEnd
  | spaceEnd
deriving DecidableEq, Repr

/-- An outstanding `keyerTimer`: absolute fire tick and callback kind. -/
structure KTimer where
  fireAt : ℕ
  kind : KTimerKind
deriving DecidableEq, Repr

/-- Observable happenings, stamped with the tick at which they occur. -/
inductive Ev
  /-- `socket.emit('ptt_control', { action: 'on' })` -/
  | pttOn (t : ℕ)
  /-- `socket.emit('ptt_control', { action: 'off' })` -/
  | pttOff (t : ℕ)
  /-- `startKeyerElement` began sending this element. -/
  | elemStart (t : ℕ) (e : Element)
  /-- the element-duration timer fired: this element completed. -/
  | elemEnd (t : ℕ) (e : Element)
  /-- `stopCWTone` armed the PTT hang timer. -/
  | hangArmed (t : ℕ)
  /-- `togglePTT`'s release branch invoked `startWebRTC()`. -/
  | reconnect (t : ℕ)
deriving DecidableEq, Repr

/-- The mutable state shared by the keyer and the PTT coordinator:
the module-level `let` variables of app.js, plus the event log. -/
structure CW where
  keyerState : KeyerPhase
  pendingElement : Option Element
  leftCtrlPressed : Bool
  rightCtrlPressed : Bool
  keyerTimer : Option KTimer
  cwPTTHangTimer : Option ℕ
  pttActive : Bool
  webrtcConnected : Bool
  wasListeningBeforePTT : Bool
  rxMuted : Bool
  oscCreated : Bool
  events : List Ev
deriving DecidableEq, Repr

/-- Initial page state (`rtc`: whether receive audio is connected). -/
def initCW (rtc : Bool) : CW :=
  { keyerState := .idle, pendingElement := none,
    leftCtrlPressed := false, rightCtrlPressed := false,
    keyerTimer := none, cwPTTHangTimer := none,
    pttActive := false, webrtcConnected := rtc,
    wasListeningBeforePTT := false, rxMuted := false,
    oscCreated := false, events := [] }

/-- `togglePTT()` (lines 963-1001).  `isListening()` returns
`webrtcConnected`.  Note the source assigns `wasListeningBeforePTT =
isListening()` unconditionally at the top, on the release call as well as
the engage call; the release branch then tests the just-overwritten
variable. -/
def togglePTT (t : ℕ) (s : CW) : CW :=
  let s1 := { s with wasListeningBeforePTT := s.webrtcConnected }
  let s2 := { s1 with pttActive := !s1.pttActive }
  if s2.pttActive then
    -- TX: emit ptt on, mute local playout
    { s2 with events := s2.events ++ [Ev.pttOn t], rxMuted := true }
  else
    -- RX: emit ptt off, flush, unmute, maybe reconnect, reset the flag
    let s3 := { s2 with events := s2.events ++ [Ev.pttOff t], rxMuted := false }
    let s4 :=
      if s3.wasListeningBeforePTT && !s3.webrtcConnected then
        { s3 with events := s3.events ++ [Ev.reconnect t] }
      else s3
    { s4 with wasListeningBeforePTT := false }

/-- `deactivatePTT()` (lines 1031-1039), run by the `ptt_response`
failure handler (lines 1075-1080): if TX, clear `pttActive`, restyle the
button, emit ptt off, update the listen buttons.  It does not touch
`rxAudioEl.muted`, `wasListeningBeforePTT`, or the session. -/
def deactivatePTT (t : ℕ) (s : CW) : CW :=
  if !s.pttActive then s
  else { s with pttActive := false, events := s.events ++ [Ev.pttOff t] }

/-- Synchronous prefix of `startCWTone()` (lines 1275-1320): clear any
pending hang timer, engage PTT via `togglePTT()` if not active, and (at
or shortly after this tick) make sure the oscillator exists.  The tone
routing (`ensureCWToneInWebRTC`, gain ramps) touches none of the state
modelled here. -/
def startCWTone (t : ℕ) (s : CW) : CW :=
  let s1 := { s with cwPTTHangTimer := none }
  let s2 := if !s1.pttActive then togglePTT t s1 else s1
  { s2 with oscCreated := true }

/-- `stopCWTone()` (lines 1322-1352): early-return if the oscillator was
never created; ramp the gain down; then, when the keyer is idle (or in
element space) with both paddles up and no pending element while PTT is
active, (re)arm the PTT hang timer for `CW_PTT_HANG_MS` from now. -/
def stopCWTone (t : ℕ) (s : CW) : CW :=
  if !s.oscCreated then s
  else
    let shouldReleasePTT :=
      (s.keyerState = .idle ∨ s.keyerState = .element_space)
      ∧ s.leftCtrlPressed = false ∧ s.rightCtrlPressed = false
      ∧ s.pendingElement = none
    if shouldReleasePTT ∧ s.pttActive = true then
      { s with cwPTTHangTimer := some (t + hangTicks),
               events := s.events ++ [Ev.hangArmed t] }
    else s

/-- `startKeyerElement(isDit)` (lines 1383-1426): guard on `keyerState`,
enter the sending phase, clear the hang timer, start the tone (which may
engage PTT), and schedule the element-duration callback. -/
def startKeyerElement (t : ℕ) (isDit : Bool) (s : CW) : CW :=
  if s.keyerState ≠ .idle then s
  else
    let duration := if isDit then ditTicks else dahTicks
    let s1 := { s with keyerState := if isDit then KeyerPhase.sending_dit else KeyerPhase.sending_dah }
    let s2 := { s1 with cwPTTHangTimer := none }
    let s3 := startCWTone t s2
    let s4 := { s3 with events := s3.events ++
      [Ev.elemStart t (if isDit then Element.dit else Element.dah)] }
    { s4 with keyerTimer := some ⟨t + duration, KTimerKind.elementEnd⟩ }

/-- The element-duration callback (lines 1402-1405): stop the tone,
enter `element_space`, schedule the inter-element-space callback one dit
later.  The completed element is read off the phase being left. -/
def fireElementEnd (t : ℕ) (s : CW) : CW :=
  let done : Option Element :=
    match s.keyerState with
    | .sending_dit => some .dit
    | .sending_dah => some .dah
    | _ => none
  let s1 := stopCWTone t s
  let s2 := { s1 with events := s1.events ++
    (match done with | some e => [Ev.elemEnd t e] | none => []) }
  { s2 with keyerState := .element_space,
            keyerTimer := some ⟨t + ditTicks, KTimerKind.spaceEnd⟩ }

/-- The inter-element-space callback (lines 1407-1424): back to `idle`;
consume a pending element, else continue with a held paddle (left first),
else truly idle — `stopCWTone()` arms the hang timer. -/
def fireSpaceEnd (t : ℕ) (s : CW) : CW :=
  let s1 := { s with keyerState := .idle, keyerTimer := none }
  match s1.pendingElement with
  | some e => startKeyerElement t (e = .dit) { s1 with pendingElement := none }
  | none =>
    if s1.leftCtrlPressed then startKeyerElement t true s1
    else if s1.rightCtrlPressed then startKeyerElement t false s1
    else stopCWTone t s1

/-- The PTT hang-timer callback (lines 1342-1349): re-check the
conditions at fire time; if still at rest with PTT active, release PTT
via `togglePTT()`; clear the handle. -/
def fireHangTimer (t : ℕ) (s : CW) : CW :=
  let s1 := { s with cwPTTHangTimer := none }
  if s1.leftCtrlPressed = false ∧ s1.rightCtrlPressed = false
     ∧ s1.pendingElement = none ∧ s1.pttActive = true then
    togglePTT t s1
  else s1

/-- `handleCWKeyDown(isLeftCtrl)` (lines 1428-1461): ignore repeats, set
the paddle flag, clear the hang timer, then either queue the opposite
element (only when the same-side paddle is up), or start an element from
idle. -/
def handleCWKeyDown (t : ℕ) (isLeftCtrl : Bool) (s : CW) : CW :=
  if isLeftCtrl ∧ s.leftCtrlPressed then s
  else if ¬isLeftCtrl ∧ s.rightCtrlPressed then s
  else
    let s1 := if isLeftCtrl then { s with leftCtrlPressed := true }
              else { s with rightCtrlPressed := true }
    let s2 := { s1 with cwPTTHangTimer := none }
    if s2.keyerState = .sending_dit ∧ s2.rightCtrlPressed = true
       ∧ s2.leftCtrlPressed = false then
      { s2 with pendingElement := some .dah }
    else if s2.keyerState = .sending_dah ∧ s2.leftCtrlPressed = true
       ∧ s2.rightCtrlPressed = false then
      { s2 with pendingElement := some .dit }
    else if s2.keyerState = .idle then
      startKeyerElement t isLeftCtrl s2
    else s2

/-- `handleCWKeyUp(isLeftCtrl)` (lines 1463-1476): clear the paddle flag;
clear `pendingElement` once both paddles are up. -/
def handleCWKeyUp (isLeftCtrl : Bool) (s : CW) : CW :=
  let s1 := if isLeftCtrl then { s with leftCtrlPressed := false }
            else { s with rightCtrlPressed := false }
  if s1.leftCtrlPressed = false ∧ s1.rightCtrlPressed = false then
    { s1 with pendingElement := none }
  else s1

/-- External inputs to the keyer/PTT machine. -/
inductive Inp
  /-- left-Control keydown (dit paddle). -/
  | downL
  /-- right-Control keydown (dah paddle). -/
  | downR
  /-- left-Control keyup. -/
  | upL
  /-- right-Control keyup. -/
  | upR
  /-- PTT button click (`togglePTT`). -/
  | pttClick
  /-- `ptt_response` with `success: false` (`deactivatePTT`). -/
  | pttFail
  /-- Disconnect-audio button (`stopWebRTC` behind its guard): the only
  source-side path that clears `webrtcConnected`. -/
  | disconnectAudio
deriving DecidableEq, Repr

/-- Dispatch one external input at tick `t`. -/
def applyInput (t : ℕ) (i : Inp) (s : CW) : CW :=
  match i with
  | .downL => handleCWKeyDown t true s
  | .downR => handleCWKeyDown t false s
  | .upL => handleCWKeyUp true s
  | .upR => handleCWKeyUp false s
  | .pttClick => togglePTT t s
  | .pttFail => deactivatePTT t s
  | .disconnectAudio =>
      if s.webrtcConnected then { s with webrtcConnected := false } else s

/-- `a ≤ᵒ b` on optional deadlines, where `none` means "not scheduled"
(never first). -/
def dueBefore (a b : Option ℕ) : Bool :=
  match a, b with
  | none, _ => false
  | some _, none => true
  | some x, some y => x ≤ y

/-- One scheduler step: run the earliest of the pending keyer timer, the
pending hang timer, and the next external input (ties go to the keyer
timer, then the hang timer; the two timers are never simultaneously due
in reachable states).  `none` when nothing is pending. -/
def step (s : CW) (inps : List (ℕ × Inp)) : Option (CW × List (ℕ × Inp)) :=
  let tk := s.keyerTimer.map KTimer.fireAt
  let th := s.cwPTTHangTimer
  let ti := inps.head?.map Prod.fst
  if dueBefore tk th ∧ dueBefore tk ti then
    match s.keyerTimer with
    | some kt =>
        let s1 := { s with keyerTimer := none }
        let s2 := match kt.kind with
          | KTimerKind.elementEnd => fireElementEnd kt.fireAt s1
          | KTimerKind.spaceEnd => fireSpaceEnd kt.fireAt s1
        some (s2, inps)
    | none => none
  else if dueBefore th ti then
    match s.cwPTTHangTimer with
    | some t => some (fireHangTimer t s, inps)
    | none => none
  else
    match inps with
    | (t, i) :: rest => some (applyInput t i s, rest)
    | [] => none

/-- Run at most `fuel` scheduler steps from `s` on the input trace. -/
def run (fuel : ℕ) (s : CW) (inps : List (ℕ × Inp)) : CW :=
  match fuel with
  | 0 => s
  | fuel' + 1 =>
    match step s inps with
    | none => s
    | some (s1, inps1) => run fuel' s1 inps1

/-! ### Projections of the event log -/

/-- The sequence of `ptt_control` actions emitted (`true` = on). -/
def pttCmds (l : List Ev) : List Bool :=
  l.filterMap fun e =>
    match e with
    | .pttOn _ => some true
    | .pttOff _ => some false
    | _ => none

/-- Times at which `ptt_control { action: 'off' }` was emitted. -/
def pttOffTimes (l : List Ev) : List ℕ :=
  l.filterMap fun e => match e with | .pttOff t => some t | _ => none

/-- Times at which `ptt_control { action: 'on' }` was emitted. -/
def pttOnTimes (l : List Ev) : List ℕ :=
  l.filterMap fun e => match e with | .pttOn t => some t | _ => none

/-- The elements whose element-duration timer completed, in order. -/
def elemEnds (l : List Ev) : List Element :=
  l.filterMap fun e => match e with | .elemEnd _ x => some x | _ => none

/-- Times at which the PTT hang timer was armed. -/
def hangArmedTimes (l : List Ev) : List ℕ :=
  l.filterMap fun e => match e with | .hangArmed t => some t | _ => none

/-- Times at which `togglePTT`'s release branch called `startWebRTC()`. -/
def reconnectTimes (l : List Ev) : List ℕ :=
  l.filterMap fun e => match e with | .reconnect t => some t | _ => none

/-- Fold the emitted `ptt_control` actions into the transmit state they
leave the controller in (starting from `a`). -/
def pttFinal (a : Bool) (l : List Bool) : Bool := l.foldl (fun _ b => b) a

/-- `true` iff, replaying the command list from transmit state `a`, every
`on` is sent while off and every `off` while on (no duplicate command
toward the controller). -/
def pttConsist (a : Bool) : List Bool → Bool
  | [] => true
  | b :: r => (a != b) && pttConsist b r

/-- Invariant tying the event log to the live `pttActive` flag. -/
def PttInv (s : CW) : Prop :=
  pttConsist false (pttCmds s.events) = true
  ∧ pttFinal false (pttCmds s.events) = s.pttActive

/-- Keyer structural invariant: the `keyerTimer` slot is occupied exactly
when the keyer is not idle, and a pending element exists only outside
idle. -/
def KeyerInv (s : CW) : Prop :=
  (s.keyerState = .idle ↔ s.keyerTimer = none)
  ∧ (s.pendingElement ≠ none → s.keyerState ≠ .idle)

/-- Combined machine invariant. -/
def Inv (s : CW) : Prop := PttInv s ∧ KeyerInv s
/-- How a single transition treated the PTT hang-timer slot: left it
unchanged, cleared it, or (re)armed it with the post-state at rest (both
paddles up, no pending element) — the shape of `stopCWTone`'s arming
guard. -/
def HangArmEvidence (s0 s1 : CW) : Prop :=
  s1.cwPTTHangTimer = s0.cwPTTHangTimer ∨ s1.cwPTTHangTimer = none
  ∨ (s1.leftCtrlPressed = false ∧ s1.rightCtrlPressed = false
     ∧ s1.pendingElement = none)

/-! ### Helper lemmas -/

theorem pttCmds_append (l m : List Ev) : pttCmds (l ++ m) = pttCmds l ++ pttCmds m := by
  simp [pttCmds, List.filterMap_append]

theorem pttFinal_append (a : Bool) (l m : List Bool) :
    pttFinal a (l ++ m) = pttFinal (pttFinal a l) m := by
  simp [pttFinal, List.foldl_append]

theorem pttConsist_append (a : Bool) (l m : List Bool) :
    pttConsist a (l ++ m) = (pttConsist a l && pttConsist (pttFinal a l) m) := by
  induction l generalizing a with
  | nil => simp [pttConsist, pttFinal]
  | cons b r ih => simp [pttConsist, pttFinal, ih, Bool.and_assoc]

@[simp] theorem pttCmds_nil : pttCmds [] = [] := rfl

@[simp] theorem pttCmds_on (t : ℕ) : pttCmds [Ev.pttOn t] = [true] := rfl

@[simp] theorem pttCmds_off (t : ℕ) : pttCmds [Ev.pttOff t] = [false] := rfl

@[simp] theorem pttCmds_elemStart (t : ℕ) (e : Element) :
    pttCmds [Ev.elemStart t e] = [] := rfl

@[simp] theorem pttCmds_elemEnd (t : ℕ) (e : Element) :
    pttCmds [Ev.elemEnd t e] = [] := rfl

@[simp] theorem pttCmds_hangArmed (t : ℕ) : pttCmds [Ev.hangArmed t] = [] := rfl

@[simp] theorem pttCmds_reconnect (t : ℕ) : pttCmds [Ev.reconnect t] = [] := rfl

@[simp] theorem pttConsist_nil (a : Bool) : pttConsist a [] = true := rfl

@[simp] theorem pttConsist_one (a b : Bool) : pttConsist a [b] = (a != b) := by
  simp [pttConsist]

@[simp] theorem pttFinal_nil (a : Bool) : pttFinal a [] = a := rfl

@[simp] theorem pttFinal_one (a b : Bool) : pttFinal a [b] = b := rfl

theorem PttInv_togglePTT (t : ℕ) (s : CW) (h : PttInv s) : PttInv (togglePTT t s) := by
  obtain ⟨h1, h2⟩ := h
  cases hp : s.pttActive <;> cases hw : s.webrtcConnected <;>
    simp [PttInv, togglePTT, hp, hw, pttCmds_append, pttConsist_append,
      pttFinal_append, h1, h2]

theorem PttInv_deactivatePTT (t : ℕ) (s : CW) (h : PttInv s) :
    PttInv (deactivatePTT t s) := by
  obtain ⟨h1, h2⟩ := h
  cases hp : s.pttActive <;>
    simp [PttInv, deactivatePTT, hp, pttCmds_append, pttConsist_append,
      pttFinal_append, h1, h2]
@[simp] theorem togglePTT_keyerState (t : ℕ) (s : CW) :
    (togglePTT t s).keyerState = s.keyerState := by
  cases hp : s.pttActive <;> cases hw : s.webrtcConnected <;> simp [togglePTT, hp, hw]

@[simp] theorem togglePTT_keyerTimer (t : ℕ) (s : CW) :
    (togglePTT t s).keyerTimer = s.keyerTimer := by
  cases hp : s.pttActive <;> cases hw : s.webrtcConnected <;> simp [togglePTT, hp, hw]

@[simp] theorem togglePTT_pendingElement (t : ℕ) (s : CW) :
    (togglePTT t s).pendingElement = s.pendingElement := by
  cases hp : s.pttActive <;> cases hw : s.webrtcConnected <;> simp [togglePTT, hp, hw]

@[simp] theorem togglePTT_leftCtrlPressed (t : ℕ) (s : CW) :
    (togglePTT t s).leftCtrlPressed = s.leftCtrlPressed := by
  cases hp : s.pttActive <;> cases hw : s.webrtcConnected <;> simp [togglePTT, hp, hw]

@[simp] theorem togglePTT_rightCtrlPressed (t : ℕ) (s : CW) :
    (togglePTT t s).rightCtrlPressed = s.rightCtrlPressed := by
  cases hp : s.pttActive <;> cases hw : s.webrtcConnected <;> simp [togglePTT, hp, hw]

@[simp] theorem togglePTT_cwPTTHangTimer (t : ℕ) (s : CW) :
    (togglePTT t s).cwPTTHangTimer = s.cwPTTHangTimer := by
  cases hp : s.pttActive <;> cases hw : s.webrtcConnected <;> simp [togglePTT, hp, hw]

@[simp] theorem togglePTT_oscCreated (t : ℕ) (s : CW) :
    (togglePTT t s).oscCreated = s.oscCreated := by
  cases hp : s.pttActive <;> cases hw : s.webrtcConnected <;> simp [togglePTT, hp, hw]

@[simp] theorem togglePTT_webrtcConnected (t : ℕ) (s : CW) :
    (togglePTT t s).webrtcConnected = s.webrtcConnected := by
  cases hp : s.pttActive <;> cases hw : s.webrtcConnected <;> simp [togglePTT, hp, hw]

@[simp] theorem togglePTT_pttActive (t : ℕ) (s : CW) :
    (togglePTT t s).pttActive = !s.pttActive := by
  cases hp : s.pttActive <;> cases hw : s.webrtcConnected <;> simp [togglePTT, hp, hw]

@[simp] theorem deactivatePTT_keyerState (t : ℕ) (s : CW) :
    (deactivatePTT t s).keyerState = s.keyerState := by
  cases hp : s.pttActive <;> simp [deactivatePTT, hp]

@[simp] theorem deactivatePTT_keyerTimer (t : ℕ) (s : CW) :
    (deactivatePTT t s).keyerTimer = s.keyerTimer := by
  cases hp : s.pttActive <;> simp [deactivatePTT, hp]

@[simp] theorem deactivatePTT_pendingElement (t : ℕ) (s : CW) :
    (deactivatePTT t s).pendingElement = s.pendingElement := by
  cases hp : s.pttActive <;> simp [deactivatePTT, hp]

@[simp] theorem deactivatePTT_leftCtrlPressed (t : ℕ) (s : CW) :
    (deactivatePTT t s).leftCtrlPressed = s.leftCtrlPressed := by
  cases hp : s.pttActive <;> simp [deactivatePTT, hp]

@[simp] theorem deactivatePTT_rightCtrlPressed (t : ℕ) (s : CW) :
    (deactivatePTT t s).rightCtrlPressed = s.rightCtrlPressed := by
  cases hp : s.pttActive <;> simp [deactivatePTT, hp]

@[simp] theorem deactivatePTT_cwPTTHangTimer (t : ℕ) (s : CW) :
    (deactivatePTT t s).cwPTTHangTimer = s.cwPTTHangTimer := by
  cases hp : s.pttActive <;> simp [deactivatePTT, hp]

@[simp] theorem stopCWTone_keyerState (t : ℕ) (s : CW) :
    (stopCWTone t s).keyerState = s.keyerState := by
  simp only [stopCWTone]
  split
  · rfl
  · split <;> rfl

@[simp] theorem stopCWTone_keyerTimer (t : ℕ) (s : CW) :
    (stopCWTone t s).keyerTimer = s.keyerTimer := by
  simp only [stopCWTone]
  split
  · rfl
  · split <;> rfl

@[simp] theorem stopCWTone_pendingElement (t : ℕ) (s : CW) :
    (stopCWTone t s).pendingElement = s.pendingElement := by
  simp only [stopCWTone]
  split
  · rfl
  · split <;> rfl

@[simp] theorem stopCWTone_leftCtrlPressed (t : ℕ) (s : CW) :
    (stopCWTone t s).leftCtrlPressed = s.leftCtrlPressed := by
  simp only [stopCWTone]
  split
  · rfl
  · split <;> rfl

@[simp] theorem stopCWTone_rightCtrlPressed (t : ℕ) (s : CW) :
    (stopCWTone t s).rightCtrlPressed = s.rightCtrlPressed := by
  simp only [stopCWTone]
  split
  · rfl
  · split <;> rfl

@[simp] theorem stopCWTone_pttActive (t : ℕ) (s : CW) :
    (stopCWTone t s).pttActive = s.pttActive := by
  simp only [stopCWTone]
  split
  · rfl
  · split <;> rfl

@[simp] theorem startCWTone_keyerState (t : ℕ) (s : CW) :
    (startCWTone t s).keyerState = s.keyerState := by
  cases hp : s.pttActive <;> simp [startCWTone, hp]

@[simp] theorem startCWTone_keyerTimer (t : ℕ) (s : CW) :
    (startCWTone t s).keyerTimer = s.keyerTimer := by
  cases hp : s.pttActive <;> simp [startCWTone, hp]

@[simp] theorem startCWTone_pendingElement (t : ℕ) (s : CW) :
    (startCWTone t s).pendingElement = s.pendingElement := by
  cases hp : s.pttActive <;> simp [startCWTone, hp]

@[simp] theorem startCWTone_leftCtrlPressed (t : ℕ) (s : CW) :
    (startCWTone t s).leftCtrlPressed = s.leftCtrlPressed := by
  cases hp : s.pttActive <;> simp [startCWTone, hp]

@[simp] theorem startCWTone_rightCtrlPressed (t : ℕ) (s : CW) :
    (startCWTone t s).rightCtrlPressed = s.rightCtrlPressed := by
  cases hp : s.pttActive <;> simp [startCWTone, hp]

@[simp] theorem startCWTone_cwPTTHangTimer (t : ℕ) (s : CW) :
    (startCWTone t s).cwPTTHangTimer = none := by
  cases hp : s.pttActive <;> simp [startCWTone, hp]
theorem PttInv_stopCWTone (t : ℕ) (s : CW) (h : PttInv s) : PttInv (stopCWTone t s) := by
  obtain ⟨h1, h2⟩ := h
  simp only [stopCWTone]
  split
  · exact ⟨h1, h2⟩
  · split
    · constructor <;>
        simp [PttInv, pttCmds_append, pttConsist_append, pttFinal_append, h1, h2]
    · exact ⟨h1, h2⟩

theorem PttInv_startCWTone (t : ℕ) (s : CW) (h : PttInv s) : PttInv (startCWTone t s) := by
  cases hp : s.pttActive with
  | false =>
      have h2 := PttInv_togglePTT t { s with cwPTTHangTimer := none } h
      simpa [startCWTone, hp, PttInv] using h2
  | true => simpa [startCWTone, hp, PttInv] using h

theorem PttInv_startKeyerElement (t : ℕ) (b : Bool) (s : CW) (h : PttInv s) :
    PttInv (startKeyerElement t b s) := by
  unfold startKeyerElement
  split
  · exact h
  · have h3 := PttInv_startCWTone t
      { s with keyerState := if b then KeyerPhase.sending_dit else KeyerPhase.sending_dah,
               cwPTTHangTimer := none } h
    obtain ⟨h31, h32⟩ := h3
    constructor <;>
      simp_all [PttInv, pttCmds_append, pttConsist_append, pttFinal_append]

theorem PttInv_fireElementEnd (t : ℕ) (s : CW) (h : PttInv s) :
    PttInv (fireElementEnd t s) := by
  have h3 := PttInv_stopCWTone t s h
  obtain ⟨h31, h32⟩ := h3
  unfold fireElementEnd
  cases s.keyerState <;>
    constructor <;>
      simp_all [PttInv, pttCmds_append, pttConsist_append, pttFinal_append]

theorem PttInv_fireSpaceEnd (t : ℕ) (s : CW) (h : PttInv s) :
    PttInv (fireSpaceEnd t s) := by
  unfold fireSpaceEnd
  cases hpe : s.pendingElement with
  | some e =>
      simp only [hpe]
      exact PttInv_startKeyerElement t _ _ h
  | none =>
      simp only [hpe]
      split_ifs <;>
        first
          | exact PttInv_startKeyerElement t _ _ h
          | exact PttInv_stopCWTone t _ h

theorem PttInv_fireHangTimer (t : ℕ) (s : CW) (h : PttInv s) :
    PttInv (fireHangTimer t s) := by
  simp only [fireHangTimer]
  split
  · exact PttInv_togglePTT t _ h
  · exact h

theorem PttInv_handleCWKeyDown (t : ℕ) (b : Bool) (s : CW) (h : PttInv s) :
    PttInv (handleCWKeyDown t b s) := by
  cases b <;> simp only [handleCWKeyDown] <;> split_ifs <;>
    first
      | exact h
      | exact PttInv_startKeyerElement t _ _ h

theorem PttInv_handleCWKeyUp (b : Bool) (s : CW) (h : PttInv s) :
    PttInv (handleCWKeyUp b s) := by
  cases b <;> simp only [handleCWKeyUp] <;> split_ifs <;> exact h

theorem KeyerInv_togglePTT (t : ℕ) (s : CW) (h : KeyerInv s) :
    KeyerInv (togglePTT t s) := by
  unfold KeyerInv at h ⊢; simpa using h

theorem KeyerInv_deactivatePTT (t : ℕ) (s : CW) (h : KeyerInv s) :
    KeyerInv (deactivatePTT t s) := by
  unfold KeyerInv at h ⊢; simpa using h

theorem KeyerInv_stopCWTone (t : ℕ) (s : CW) (h : KeyerInv s) :
    KeyerInv (stopCWTone t s) := by
  unfold KeyerInv at h ⊢; simpa using h

theorem KeyerInv_startCWTone (t : ℕ) (s : CW) (h : KeyerInv s) :
    KeyerInv (startCWTone t s) := by
  unfold KeyerInv at h ⊢; simpa using h

theorem KeyerInv_startKeyerElement (t : ℕ) (b : Bool) (s : CW) (h : KeyerInv s) :
    KeyerInv (startKeyerElement t b s) := by
  unfold startKeyerElement
  split
  · exact h
  · unfold KeyerInv
    cases b <;> simp

theorem KeyerInv_fireElementEnd (t : ℕ) (s : CW) : KeyerInv (fireElementEnd t s) := by
  unfold KeyerInv fireElementEnd
  simp

theorem KeyerInv_fireSpaceEnd (t : ℕ) (s : CW) : KeyerInv (fireSpaceEnd t s) := by
  unfold fireSpaceEnd
  cases hpe : s.pendingElement with
  | some e =>
      simp only [hpe]
      unfold startKeyerElement KeyerInv
      cases he : decide (e = Element.dit) <;> simp_all
  | none =>
      simp only [hpe]
      split_ifs <;>
        first
          | (unfold startKeyerElement KeyerInv
             simp_all)
          | (unfold KeyerInv
             simp_all)

theorem KeyerInv_fireHangTimer (t : ℕ) (s : CW) (h : KeyerInv s) :
    KeyerInv (fireHangTimer t s) := by
  simp only [fireHangTimer]
  split
  · have := KeyerInv_togglePTT t ({ s with cwPTTHangTimer := none }) h
    simpa [KeyerInv] using this
  · unfold KeyerInv at h ⊢; simpa using h

theorem KeyerInv_handleCWKeyDown (t : ℕ) (b : Bool) (s : CW) (h : KeyerInv s) :
    KeyerInv (handleCWKeyDown t b s) := by
  obtain ⟨h1, h2⟩ := h
  cases b <;> simp only [handleCWKeyDown] <;> split_ifs <;>
    first
      | exact ⟨h1, h2⟩
      | exact KeyerInv_startKeyerElement t _ _ ⟨h1, h2⟩
      | (unfold KeyerInv
         constructor <;> simp_all)

theorem KeyerInv_handleCWKeyUp (b : Bool) (s : CW) (h : KeyerInv s) :
    KeyerInv (handleCWKeyUp b s) := by
  obtain ⟨h1, h2⟩ := h
  cases b <;> simp only [handleCWKeyUp] <;> split_ifs <;>
    first
      | exact ⟨h1, h2⟩
      | (unfold KeyerInv
         constructor <;> simp_all)
theorem PttInv_applyInput (t : ℕ) (i : Inp) (s : CW) (h : PttInv s) :
    PttInv (applyInput t i s) := by
  cases i <;> simp only [applyInput] <;>
    first
      | exact PttInv_handleCWKeyDown t _ _ h
      | exact PttInv_handleCWKeyUp _ _ h
      | exact PttInv_togglePTT t _ h
      | exact PttInv_deactivatePTT t _ h
      | (split_ifs <;> exact h)

theorem KeyerInv_applyInput (t : ℕ) (i : Inp) (s : CW) (h : KeyerInv s) :
    KeyerInv (applyInput t i s) := by
  cases i <;> simp only [applyInput] <;>
    first
      | exact KeyerInv_handleCWKeyDown t _ _ h
      | exact KeyerInv_handleCWKeyUp _ _ h
      | exact KeyerInv_togglePTT t _ h
      | exact KeyerInv_deactivatePTT t _ h
      | (split_ifs <;> (unfold KeyerInv at h ⊢; simpa using h))

theorem Inv_step {s s1 : CW} {inps inps1 : List (ℕ × Inp)}
    (hstep : step s inps = some (s1, inps1)) (h : Inv s) : Inv s1 := by
  obtain ⟨hp, hk⟩ := h
  simp only [step] at hstep
  split at hstep
  · -- keyer timer first
    split at hstep
    · -- s.keyerTimer = some kt
      rename_i kt _
      simp only [Option.some.injEq, Prod.mk.injEq] at hstep
      obtain ⟨hs1, _⟩ := hstep
      subst hs1
      cases ck : kt.kind <;> simp only [ck]
      · exact ⟨PttInv_fireElementEnd _ _ hp, KeyerInv_fireElementEnd _ _⟩
      · exact ⟨PttInv_fireSpaceEnd _ _ hp, KeyerInv_fireSpaceEnd _ _⟩
    · cases hstep
  · split at hstep
    · -- hang timer
      split at hstep
      · rename_i ht _
        simp only [Option.some.injEq, Prod.mk.injEq] at hstep
        obtain ⟨hs1, _⟩ := hstep
        subst hs1
        exact ⟨PttInv_fireHangTimer _ _ hp, KeyerInv_fireHangTimer _ _ hk⟩
      · cases hstep
    · -- next input
      split at hstep
      · rename_i t i rest _
        simp only [Option.some.injEq, Prod.mk.injEq] at hstep
        obtain ⟨hs1, _⟩ := hstep
        subst hs1
        exact ⟨PttInv_applyInput _ _ _ hp, KeyerInv_applyInput _ _ _ hk⟩
      · cases hstep

theorem Inv_run (fuel : ℕ) (s : CW) (inps : List (ℕ × Inp)) (h : Inv s) :
    Inv (run fuel s inps) := by
  induction fuel generalizing s inps with
  | zero => simpa [run] using h
  | succ n ih =>
      rw [run]
      cases hstep : step s inps with
      | none => exact h
      | some p =>
          obtain ⟨s2, inps2⟩ := p
          exact ih s2 inps2 (Inv_step hstep ⟨h.1, h.2⟩)

theorem Inv_initCW (rtc : Bool) : Inv (initCW rtc) := by
  refine ⟨⟨rfl, rfl⟩, ?_, ?_⟩ <;> simp [initCW]
@[simp] theorem startKeyerElement_cwPTTHangTimer (t : ℕ) (b : Bool) (s : CW) :
    (startKeyerElement t b s).cwPTTHangTimer =
      if s.keyerState = KeyerPhase.idle then none else s.cwPTTHangTimer := by
  unfold startKeyerElement
  split
  · rename_i hne
    simp [hne]
  · rename_i hid
    rw [not_not] at hid
    simp [hid]

@[simp] theorem fireElementEnd_cwPTTHangTimer (t : ℕ) (s : CW) :
    (fireElementEnd t s).cwPTTHangTimer = (stopCWTone t s).cwPTTHangTimer := rfl

@[simp] theorem fireElementEnd_leftCtrlPressed (t : ℕ) (s : CW) :
    (fireElementEnd t s).leftCtrlPressed = s.leftCtrlPressed := by
  simp [fireElementEnd]

@[simp] theorem fireElementEnd_rightCtrlPressed (t : ℕ) (s : CW) :
    (fireElementEnd t s).rightCtrlPressed = s.rightCtrlPressed := by
  simp [fireElementEnd]

@[simp] theorem fireElementEnd_pendingElement (t : ℕ) (s : CW) :
    (fireElementEnd t s).pendingElement = s.pendingElement := by
  simp [fireElementEnd]

@[simp] theorem fireHangTimer_cwPTTHangTimer (t : ℕ) (s : CW) :
    (fireHangTimer t s).cwPTTHangTimer = none := by
  simp only [fireHangTimer]
  split
  · simp
  · rfl

theorem hangEv_togglePTT (t : ℕ) (s : CW) : HangArmEvidence s (togglePTT t s) :=
  Or.inl (togglePTT_cwPTTHangTimer t s)

theorem hangEv_deactivatePTT (t : ℕ) (s : CW) : HangArmEvidence s (deactivatePTT t s) :=
  Or.inl (deactivatePTT_cwPTTHangTimer t s)

theorem hangEv_stopCWTone (t : ℕ) (s : CW) : HangArmEvidence s (stopCWTone t s) := by
  unfold HangArmEvidence
  simp only [stopCWTone]
  split
  · left; rfl
  · split
    · rename_i hcond
      right; right
      exact ⟨hcond.1.2.1, hcond.1.2.2.1, hcond.1.2.2.2⟩
    · left; rfl

theorem hangEv_startCWTone (t : ℕ) (s : CW) : HangArmEvidence s (startCWTone t s) :=
  Or.inr (Or.inl (startCWTone_cwPTTHangTimer t s))

theorem hangEv_startKeyerElement (t : ℕ) (b : Bool) (s : CW) :
    HangArmEvidence s (startKeyerElement t b s) := by
  unfold HangArmEvidence
  by_cases hi : s.keyerState = KeyerPhase.idle <;>
    simp [startKeyerElement_cwPTTHangTimer, hi]

theorem hangEv_fireElementEnd (t : ℕ) (s : CW) :
    HangArmEvidence s (fireElementEnd t s) := by
  have h := hangEv_stopCWTone t s
  unfold HangArmEvidence at h ⊢
  simpa using h

theorem hangEv_fireSpaceEnd (t : ℕ) (s : CW) :
    HangArmEvidence s (fireSpaceEnd t s) := by
  unfold fireSpaceEnd
  cases hpe : s.pendingElement with
  | some e =>
      simp only [hpe]
      right; left
      simp [startKeyerElement_cwPTTHangTimer]
  | none =>
      simp only [hpe]
      split_ifs with hl hr
      · right; left; simp [startKeyerElement_cwPTTHangTimer]
      · right; left; simp [startKeyerElement_cwPTTHangTimer]
      · have h := hangEv_stopCWTone t
          { s with keyerState := KeyerPhase.idle, keyerTimer := none,
                   pendingElement := none }
        unfold HangArmEvidence at h ⊢
        simpa using h

theorem hangEv_fireHangTimer (t : ℕ) (s : CW) :
    HangArmEvidence s (fireHangTimer t s) :=
  Or.inr (Or.inl (fireHangTimer_cwPTTHangTimer t s))

theorem hangEv_handleCWKeyDown (t : ℕ) (b : Bool) (s : CW) :
    HangArmEvidence s (handleCWKeyDown t b s) := by
  unfold HangArmEvidence
  cases b <;> simp only [handleCWKeyDown] <;> split_ifs <;>
    first
      | (left; rfl)
      | (right; left; rfl)
      | (right; left; simp_all [startKeyerElement_cwPTTHangTimer])

theorem hangEv_handleCWKeyUp (b : Bool) (s : CW) :
    HangArmEvidence s (handleCWKeyUp b s) := by
  unfold HangArmEvidence
  cases b <;> simp only [handleCWKeyUp] <;> split_ifs <;> (left; rfl)

theorem hangEv_applyInput (t : ℕ) (i : Inp) (s : CW) :
    HangArmEvidence s (applyInput t i s) := by
  cases i <;> simp only [applyInput] <;>
    first
      | exact hangEv_handleCWKeyDown t _ _
      | exact hangEv_handleCWKeyUp _ _
      | exact hangEv_togglePTT t _
      | exact hangEv_deactivatePTT t _
      | (unfold HangArmEvidence
         split_ifs <;> (left; rfl))

theorem hangEv_step {s s1 : CW} {inps inps1 : List (ℕ × Inp)}
    (hstep : step s inps = some (s1, inps1)) : HangArmEvidence s s1 := by
  simp only [step] at hstep
  split at hstep
  · split at hstep
    · rename_i kt _
      simp only [Option.some.injEq, Prod.mk.injEq] at hstep
      obtain ⟨hs1, _⟩ := hstep
      subst hs1
      cases ck : kt.kind <;> simp only [ck]
      · have h := hangEv_fireElementEnd kt.fireAt { s with keyerTimer := none }
        unfold HangArmEvidence at h ⊢
        simpa using h
      · have h := hangEv_fireSpaceEnd kt.fireAt { s with keyerTimer := none }
        unfold HangArmEvidence at h ⊢
        simpa using h
    · cases hstep
  · split at hstep
    · split at hstep
      · rename_i ht _
        simp only [Option.some.injEq, Prod.mk.injEq] at hstep
        obtain ⟨hs1, _⟩ := hstep
        subst hs1
        exact hangEv_fireHangTimer _ _
      · cases hstep
    · split at hstep
      · simp only [Option.some.injEq, Prod.mk.injEq] at hstep
        obtain ⟨hs1, _⟩ := hstep
        subst hs1
        exact hangEv_applyInput _ _ _
      · cases hstep
/-! ### Claim theorems -/

/-- Claim C1, counterexample: after one `startWebRTC` entry from the
initial state the session is in the spec's `Negotiating` phase (offer in
flight, `webrtcConnected` still false), yet a second `startWebRTC` call
passes the guard and POSTs a second offer (`offersSent = 2`) — the guard
checks only `webrtcConnected`, so a connect during `Negotiating` does
start a second offer/answer exchange. -/
theorem C1_counterexample :
    RTC.negotiating (startWebRTC_entry RTC.init).1
    ∧ (startWebRTC_entry (startWebRTC_entry RTC.init).1).2 = true
    ∧ (startWebRTC_entry (startWebRTC_entry RTC.init).1).1.offersSent = 2 := by
  refine ⟨⟨rfl, rfl⟩, rfl, rfl⟩

/-- Claim C1, amended: `startWebRTC` returns without starting an
offer/answer exchange exactly when the audio element is missing or the
session is already `Connected` (`webrtcConnected` true); the `Negotiating`
phase is not guarded. -/
theorem C1_theorem (s : RTC) :
    (startWebRTC_entry s).2 = false
      ↔ (s.hasAudioEl = false ∨ s.webrtcConnected = true) := by
  cases hA : s.hasAudioEl <;> cases hW : s.webrtcConnected <;>
    simp [startWebRTC_entry, hA, hW]

/-- Claim C2: holding both paddles from `Idle` (left pressed at tick 0,
right pressed at tick 100, both held) makes the keyer emit `dit, dit,
dit, …`, not the strictly alternating `dit, dah, dit, …`: the iambic
queueing condition additionally requires the same-side paddle to be
released, so with both paddles down `pendingElement` is never set and the
space-end continuation always picks the left paddle first. -/
theorem C2_theorem :
    elemEnds (run 7 (initCW false) [(0, Inp.downL), (100, Inp.downR)]).events
        = [Element.dit, Element.dit, Element.dit]
    ∧ (run 7 (initCW false) [(0, Inp.downL), (100, Inp.downR)]).leftCtrlPressed = true
    ∧ (run 7 (initCW false) [(0, Inp.downL), (100, Inp.downR)]).rightCtrlPressed = true
    ∧ [Element.dit, Element.dit, Element.dit]
        ≠ [Element.dit, Element.dah, Element.dit] := by
  refine ⟨by decide, by decide, by decide, by decide⟩

/-- Claim C3: pressing only the left paddle at tick 0 and releasing it at
tick 600 (within the single element) yields exactly one
`ptt_control off`, emitted at `2400 + hangTicks = 7500` ticks — the
fixed hang interval after the inter-element timer completed at 2400 —
and in general any transition of the machine that newly arms the hang
timer leaves both paddles up and no pending element, while starting a
new element from idle always clears the hang timer. -/
theorem C3_theorem :
    ((run 10 (initCW false) [(0, Inp.downL), (600, Inp.upL)]).events =
        [Ev.pttOn 0, Ev.elemStart 0 Element.dit, Ev.elemEnd 1200 Element.dit,
         Ev.hangArmed 2400, Ev.pttOff 7500]
      ∧ pttOffTimes (run 10 (initCW false) [(0, Inp.downL), (600, Inp.upL)]).events
          = [2400 + hangTicks]
      ∧ hangArmedTimes (run 10 (initCW false) [(0, Inp.downL), (600, Inp.upL)]).events
          = [2400])
    ∧ (∀ (s s1 : CW) (inps inps1 : List (ℕ × Inp)),
        step s inps = some (s1, inps1) →
        s1.cwPTTHangTimer ≠ s.cwPTTHangTimer →
        s1.cwPTTHangTimer.isSome = true →
        s1.leftCtrlPressed = false ∧ s1.rightCtrlPressed = false
          ∧ s1.pendingElement = none)
    ∧ (∀ (t : ℕ) (b : Bool) (s : CW), s.keyerState = KeyerPhase.idle →
        (startKeyerElement t b s).cwPTTHangTimer = none) := by
  refine ⟨⟨by decide, by decide, by decide⟩, ?_, ?_⟩
  · intro s s1 inps inps1 hstep hne hsome
    rcases hangEv_step hstep with h | h | h
    · exact absurd h hne
    · rw [h] at hsome; cases hsome
    · exact h
  · intro t b s hid
    simp [startKeyerElement_cwPTTHangTimer, hid]

/-- Claim C3, witness: the general conjuncts applied at the concrete
trace — the fourth scheduler step of the hang-timer trace is the
space-end that arms the timer (so the post-state is at rest), and
starting an element from the initial idle state leaves no hang timer. -/
theorem C3_witness :
    ((run 4 (initCW false) [(0, Inp.downL), (600, Inp.upL)]).leftCtrlPressed = false
      ∧ (run 4 (initCW false) [(0, Inp.downL), (600, Inp.upL)]).rightCtrlPressed = false
      ∧ (run 4 (initCW false) [(0, Inp.downL), (600, Inp.upL)]).pendingElement = none)
    ∧ (startKeyerElement 0 true (initCW false)).cwPTTHangTimer = none := by
  constructor
  · exact C3_theorem.2.1 (run 3 (initCW false) [(0, Inp.downL), (600, Inp.upL)])
      (run 4 (initCW false) [(0, Inp.downL), (600, Inp.upL)]) [] []
      (by decide) (by decide) (by decide)
  · exact C3_theorem.2.2 0 true (initCW false) rfl

/-- Claim C4: on every input trace (paddle events, PTT button clicks,
`ptt_response` failures, audio disconnects) the emitted
`ptt_control` command sequence strictly alternates starting from the off
state: a transmit-on command is never emitted while `pttActive` is
already true, for both keyer-driven and manual paths. -/
theorem C4_theorem (rtc : Bool) (inps : List (ℕ × Inp)) (fuel : ℕ) :
    pttConsist false (pttCmds (run fuel (initCW rtc) inps).events) = true :=
  (Inv_run fuel (initCW rtc) inps (Inv_initCW rtc)).1.1

/-- Claim C5, counterexample: engage PTT manually (muting playout), then
receive `ptt_response` with `success: false`; `deactivatePTT` emits the
transmit-off command and returns to RX, but the playout stays muted
(`rxMuted = true`) — the restore that the claim requires does not
happen. -/
theorem C5_counterexample :
    (run 2 (initCW false) [(0, Inp.pttClick), (100, Inp.pttFail)]).pttActive = false
    ∧ (run 2 (initCW false) [(0, Inp.pttClick), (100, Inp.pttFail)]).rxMuted = true
    ∧ pttCmds (run 2 (initCW false) [(0, Inp.pttClick), (100, Inp.pttFail)]).events
        = [true, false] := by
  refine ⟨by decide, by decide, by decide⟩

/-- Claim C5, amended: on a rejected transmit command while in TX,
`deactivatePTT` emits `ptt_control off` and clears `pttActive`, and
changes nothing else: the playout mute and `wasListeningBeforePTT` are
left as they were (no restore, no reconnect). -/
theorem C5_theorem (t : ℕ) (s : CW) (h : s.pttActive = true) :
    deactivatePTT t s
      = { s with pttActive := false, events := s.events ++ [Ev.pttOff t] } := by
  simp [deactivatePTT, h]

/-- Claim C5, witness: the amended statement evaluated on a concrete TX
state. -/
theorem C5_witness :
    (deactivatePTT 5 { initCW false with pttActive := true }).pttActive = false := by
  rw [C5_theorem 5 { initCW false with pttActive := true } rfl]

/-- Claim C6, counterexample: if the signaling `fetch` itself rejects
(network error) while negotiating, the exception propagates
(`.2 = true`) but no teardown runs: the peer connection stays open and
its tracks live, leaving a partially-negotiated session — contradicting
the claim that every failure path tears the session down. -/
theorem C6_counterexample :
    (startWebRTC_resume (startWebRTC_entry RTC.init).1 SignalResult.networkError).2 = true
    ∧ (startWebRTC_resume (startWebRTC_entry RTC.init).1 SignalResult.networkError).1.pcOpen
        = true
    ∧ (startWebRTC_resume (startWebRTC_entry RTC.init).1 SignalResult.networkError).1.tracksLive
        = true
    ∧ (startWebRTC_resume (startWebRTC_entry RTC.init).1
        SignalResult.networkError).1.webrtcConnected = false := by
  refine ⟨rfl, rfl, rfl, rfl⟩

/-- Claim C6, amended: only the non-success signaling status runs the
teardown (`stopWebRTC`: tracks stopped, transport closed,
`webrtcConnected` false) and then returns normally without surfacing an
error value; a thrown network error propagates to the caller but
performs no teardown, leaving the state as it was. -/
theorem C6_theorem (s : RTC) :
    startWebRTC_resume s SignalResult.httpError = (stopWebRTC s, false)
    ∧ startWebRTC_resume s SignalResult.networkError = (s, true)
    ∧ (stopWebRTC s).pcOpen = false
    ∧ (stopWebRTC s).tracksLive = false
    ∧ (stopWebRTC s).webrtcConnected = false :=
  ⟨rfl, rfl, rfl, rfl, rfl⟩

/-- Claim C7, counterexample: press left at 0, release it at 100, press
right at 200; when the element-duration timer fires at 1200 the keyer is
in `element_space` with `pendingElement = dah` still set — the queued
element survives into the inter-element space, violating the claimed
invariant that `pendingElement ≠ None` only in the sending phases. -/
theorem C7_counterexample :
    (run 4 (initCW false) [(0, Inp.downL), (100, Inp.upL), (200, Inp.downR)]).keyerState
        = KeyerPhase.element_space
    ∧ (run 4 (initCW false) [(0, Inp.downL), (100, Inp.upL), (200, Inp.downR)]).pendingElement
        = some Element.dah := by
  refine ⟨by decide, by decide⟩

/-- Claim C7, amended: in every reachable state, a non-idle phase has the
element timer outstanding (and conversely the slot is empty at idle), and
a pending element implies the phase is not `Idle` — it may be a sending
phase or `ElementSpace`. -/
theorem C7_theorem (rtc : Bool) (inps : List (ℕ × Inp)) (fuel : ℕ) :
    ((run fuel (initCW rtc) inps).keyerState ≠ KeyerPhase.idle →
      (run fuel (initCW rtc) inps).keyerTimer ≠ none)
    ∧ ((run fuel (initCW rtc) inps).pendingElement ≠ none →
      (run fuel (initCW rtc) inps).keyerState ≠ KeyerPhase.idle) := by
  have h := (Inv_run fuel (initCW rtc) inps (Inv_initCW rtc)).2
  exact ⟨fun hne htim => hne (h.1.mpr htim), h.2⟩

/-- Claim C7, witness: the amended invariant applied after one step of a
concrete trace (an element is being sent, so a timer is outstanding). -/
theorem C7_witness :
    (run 1 (initCW false) [(0, Inp.downL)]).keyerTimer ≠ none :=
  (C7_theorem false [(0, Inp.downL)] 1).1 (by decide)

/-- Claim C8, counterexample: at 17 WPM, holding only the left paddle
from tick 0 to tick 8500 (500 ms) produces 4 complete dit elements —
the element begun at 423.5 ms still completes after release because
element completion is timer-driven — whereas the claimed count is
`⌊500 / (DIT_MS + DIT_MS)⌋ = 3`; the transmit-on part (emitted once, at
the first element) does hold. -/
theorem C8_counterexample :
    (elemEnds (run 12 (initCW false) [(0, Inp.downL), (8500, Inp.upL)]).events).length = 4
    ∧ pttOnTimes (run 12 (initCW false) [(0, Inp.downL), (8500, Inp.upL)]).events = [0]
    ∧ ⌊(500 : ℚ) / (DIT_MS + DIT_MS)⌋ = 3
    ∧ (4 : ℤ) ≠ 3 := by
  refine ⟨by decide, by decide, ?_, by decide⟩
  rw [show (500 : ℚ) / (DIT_MS + DIT_MS) = 85 / 24 by
    rw [DIT_MS, CW_WPM]; norm_num]
  rw [Int.floor_eq_iff]; norm_num

/-- Claim C8, amended: `DIT_MS = 1200/17 ≈ 70.6 ms` and
`DAH_MS = 3 × DIT_MS ≈ 211.8 ms` hold exactly; holding the left paddle
for 500 ms produces `⌈500 / (DIT_MS + DIT_MS)⌉ = 4` complete
dit-elements (an element begun before release still completes), with the
transmit-on command emitted exactly once, at the first element. -/
theorem C8_theorem :
    DIT_MS = 1200 / 17
    ∧ DAH_MS = 3 * DIT_MS
    ∧ |DIT_MS - 706 / 10| < 1 / 10
    ∧ |DAH_MS - 2118 / 10| < 1 / 10
    ∧ ((elemEnds (run 12 (initCW false) [(0, Inp.downL), (8500, Inp.upL)]).events).length : ℤ)
        = ⌈(500 : ℚ) / (DIT_MS + DIT_MS)⌉
    ∧ pttOnTimes (run 12 (initCW false) [(0, Inp.downL), (8500, Inp.upL)]).events = [0] := by
  refine ⟨by norm_num [DIT_MS, CW_WPM], by rw [DAH_MS]; ring, ?_, ?_, ?_, by decide⟩
  · rw [abs_sub_lt_iff]
    constructor <;> (rw [DIT_MS, CW_WPM]; norm_num)
  · rw [abs_sub_lt_iff]
    constructor <;> (rw [DAH_MS, DIT_MS, CW_WPM]; norm_num)
  · rw [show (500 : ℚ) / (DIT_MS + DIT_MS) = 85 / 24 by
      rw [DIT_MS, CW_WPM]; norm_num]
    rw [show (elemEnds (run 12 (initCW false)
      [(0, Inp.downL), (8500, Inp.upL)]).events).length = 4 from by decide]
    symm
    rw [Int.ceil_eq_iff]; norm_num

/-- Claim C9: the automatic reconnect on PTT release is dead code:
`togglePTT` reassigns `wasListeningBeforePTT = isListening()` at the top
of the release call too, so its reconnect condition is
`webrtcConnected && !webrtcConnected` and `startWebRTC()` is never
invoked from it — shown in general and on the concrete scenario
(audio connected, engage PTT, session drops during TX, release PTT):
no reconnect happens even though the claim requires one; the flag is
reset after release and no reconnect occurs when the session stayed
connected (the only parts of the claim the code satisfies). -/
theorem C9_theorem :
    (∀ (t : ℕ) (s : CW),
        reconnectTimes (togglePTT t s).events = reconnectTimes s.events)
    ∧ (initCW true).webrtcConnected = true
    ∧ (run 1 (initCW true)
        [(0, Inp.pttClick), (100, Inp.disconnectAudio), (200, Inp.pttClick)]).pttActive = true
    ∧ (run 1 (initCW true)
        [(0, Inp.pttClick), (100, Inp.disconnectAudio), (200, Inp.pttClick)]).wasListeningBeforePTT
        = true
    ∧ (run 2 (initCW true)
        [(0, Inp.pttClick), (100, Inp.disconnectAudio), (200, Inp.pttClick)]).webrtcConnected
        = false
    ∧ (run 3 (initCW true)
        [(0, Inp.pttClick), (100, Inp.disconnectAudio), (200, Inp.pttClick)]).pttActive = false
    ∧ (run 3 (initCW true)
        [(0, Inp.pttClick), (100, Inp.disconnectAudio), (200, Inp.pttClick)]).wasListeningBeforePTT
        = false
    ∧ reconnectTimes (run 3 (initCW true)
        [(0, Inp.pttClick), (100, Inp.disconnectAudio), (200, Inp.pttClick)]).events = [] := by
  refine ⟨?_, by decide, by decide, by decide, by decide, by decide, by decide, by decide⟩
  intro t s
  cases hp : s.pttActive <;> cases hw : s.webrtcConnected <;>
    simp [togglePTT, hp, hw, reconnectTimes, List.filterMap_append]

theorem all_isNone_of_clear (l : List (ℕ × Option TrackSrc)) :
    (l.map fun p => if p.2.isSome then (p.1, (none : Option TrackSrc)) else p).all
      (fun p => p.2.isNone) = true := by
  induction l with
  | nil => rfl
  | cons a r ih => cases ha : a.2 <;> simp [ha, ih]

/-- Claim C10: while the peer connection is live, `disconnectMic` nulls
the track of every sender that carries an audio track — the CW tone
sender included, not only the microphone's — and sends no renegotiation
offer. -/
theorem C10_theorem (s : MicRTC) (h1 : s.micEnabled = true) (h2 : s.pcOpen = true)
    (h3 : s.webrtcConnected = true) :
    (disconnectMic s).senders.all (fun p => p.2.isNone) = true
    ∧ (disconnectMic s).offersSent = s.offersSent := by
  have hbody : disconnectMic s
      = { s with micEnabled := false, micStreamPresent := false,
                 senders := s.senders.map (fun p =>
                   if p.2.isSome then (p.1, none) else p) } := by
    simp [disconnectMic, h1, h2, h3]
  rw [hbody]
  exact ⟨all_isNone_of_clear s.senders, rfl⟩

/-- Claim C10, witness: on the concrete state built by granting the mic
(`connectMic`) and adding the CW tone sender (`ensureCWToneInWebRTC`)
over a connected session, `disconnectMic` leaves no sender carrying a
track. -/
theorem C10_witness :
    (disconnectMic (ensureCWToneInWebRTC
        (connectMic
          { pcOpen := true, webrtcConnected := true, micEnabled := false,
            micStreamPresent := false, cwDestReady := true, senders := [],
            cwToneSender := none, nextSenderId := 0, offersSent := 0 }
          true true)
        true).1).senders.all (fun p => p.2.isNone) = true :=
  (C10_theorem _ (by decide) (by decide) (by decide)).1

end FlrigWeb
